import Mathlib

/-
Verification of the chat-client core of the working-bot repository.

The embedded code lives in two files:
  * src/frontend/src/hooks/useWebSocket.ts — sanitizer/validator, connection
    lifecycle (connect / onopen / onclose / onerror / onmessage handlers),
    outbound queue, inbound message store;
  * src/frontend/src/components/ChatWindow.tsx — the reconciliation merge
    (`allMessages` / `uniqueMessages`).

Modelling conventions:
  * JavaScript strings are Lean `String`s; the single-character-global
    `String.prototype.replace` calls are modelled character-wise.
  * Dates: the merge comparator computes
    `new Date(String(a.created_at || a.timestamp)).getTime()`.  We abstract
    date parsing and let every feed entry carry `time? : Option Int` — the
    millisecond value `getTime()` returns, with `none` standing for `NaN`
    (an unparseable or missing timestamp).
  * `Array.prototype.sort` is modelled as a stable insertion sort.  The
    ECMAScript comparator wrapper coerces a `NaN` comparator result to `+0`
    (`sortCompare` below), and since ES2019 `sort` is required to be stable;
    for a consistent comparator the stable-sorted output is unique, so the
    model agrees with every conforming engine there.
  * The hook's mutable refs and React state become the record `HookState`;
    every event handler becomes a pure function on it.  Transmission order
    on the wire is recorded in the ghost field `sentFrames`.
-/

namespace WorkingBot

/-! ## Sanitizer / validator (useWebSocket.ts lines 33-74) -/

def MAX_MESSAGE_LENGTH : Nat := 4000

def MAX_MESSAGES_BUFFER : Nat := 1000

/-- All-occurrence replacement of the single character `c` by the string
`rep`, the behaviour of JS `String.prototype.replace` with a global
single-character pattern. -/
def replaceAllChar (c : Char) (rep : List Char) (s : List Char) : List Char :=
  s.foldr (fun ch acc => if ch = c then rep ++ acc else ch :: acc) []

/-- JS `String.prototype.trim`: strip whitespace from both ends. -/
def trimChars (s : List Char) : List Char :=
  ((s.dropWhile Char.isWhitespace).reverse.dropWhile Char.isWhitespace).reverse

/-- Field-for-field transcription of `sanitizeMessage` (useWebSocket.ts
lines 54-62).  The source text is, verbatim:

    return content
      .replace(/</g, '<')
      .replace(/>/g, '>')
      .replace(/"/g, '"')
      .replace(/'/g, '&#x27;')
      .trim();

so the first three `replace` calls substitute each character by itself
(the replacement string IS the matched character), only the apostrophe
(code 39) is rewritten to `&#x27;`, the ampersand is never touched, and
the result is trimmed.  Char codes 34 and 39 are the double quote and the
apostrophe. -/
def sanitizeMessage (content : String) : String :=
  String.mk (trimChars
    (replaceAllChar (Char.ofNat 39) "&#x27;".data
      (replaceAllChar (Char.ofNat 34) [Char.ofNat 34]
        (replaceAllChar '>' ['>']
          (replaceAllChar '<' ['<'] content.data)))))

/-- Shape of a decoded non-control inbound payload.  The `typeof`-string
checks of `validateMessage` are captured by the typed fields; `timestamp`
and `content_type` are the two fields the handler reads but does not
require. -/
structure InboundData where
  id : String
  content : String
  sender : String
  chatId : String
  timestamp : Option String
  content_type : Option String
  deriving DecidableEq

/-- `validateMessage` (useWebSocket.ts lines 64-74): after the structural
`typeof` checks (absorbed by the `InboundData` type) the only residual
condition is the content-length bound. -/
def validateMessage (m : InboundData) : Bool :=
  m.content.length ≤ MAX_MESSAGE_LENGTH

/-- A decoded inbound frame: a pong control frame, a message-shaped
payload, or a frame whose JSON parsing failed. -/
inductive Frame where
  | pong : Frame
  | payload : InboundData → Frame
  | malformed : Frame
  deriving DecidableEq

/-- A message as stored in the inbound message store: the accepted payload
with sanitized content.  The stored `timestamp` field keeps the raw
optional source string (`new Date(data.timestamp || Date.now())`). -/
structure StoredMessage where
  id : String
  content : String
  sender : String
  chatId : String
  timestamp : Option String
  deriving DecidableEq

/-- The `ws.onmessage` handler (useWebSocket.ts lines 188-221): pong frames
and malformed frames are dropped, invalid payloads are dropped, accepted
payloads are appended with sanitized content, and the buffer is cut to its
last `MAX_MESSAGES_BUFFER` entries (`slice(-MAX_MESSAGES_BUFFER)`). -/
def onMessage (prev : List StoredMessage) (frame : Frame) : List StoredMessage :=
  match frame with
  | Frame.pong => prev
  | Frame.malformed => prev
  | Frame.payload d =>
      if validateMessage d then
        let next := prev ++
          [{ id := d.id, content := sanitizeMessage d.content,
             sender := d.sender, chatId := d.chatId, timestamp := d.timestamp }]
        next.drop (next.length - MAX_MESSAGES_BUFFER)
      else prev

/-! ## Reconciliation merge (ChatWindow.tsx lines 60-65) -/

/-- One element of the merged feed: a historical record or a live store
message.  `time?` is the abstracted result of
`new Date(String(created_at || timestamp)).getTime()` — `some` a
millisecond value, or `none` for `NaN`. -/
structure FeedMsg where
  id : String
  content : String
  chatId : String
  time? : Option Int
  deriving DecidableEq

/-- The sort comparator of ChatWindow.tsx lines 60-64 composed with the
ECMAScript `SortCompare` wrapper, which coerces a `NaN` comparator result
to `+0`: the difference of the two resolved times, or `0` when either is
`NaN`. -/
def sortCompare (a b : FeedMsg) : Int :=
  match a.time?, b.time? with
  | some x, some y => x - y
  | some _, none => 0
  | none, some _ => 0
  | none, none => 0

/-- Non-positive comparator outcome: `b` does not have to be placed before
`a`. -/
def leSC (a b : FeedMsg) : Bool :=
  decide (sortCompare a b ≤ 0)

/-- Stable insertion: `x` is placed after every element that compares
less-or-equal to it, before the first strictly greater one. -/
def insertStable (x : FeedMsg) : List FeedMsg → List FeedMsg
  | [] => [x]
  | y :: ys => if leSC y x then y :: insertStable x ys else x :: y :: ys

/-- Stable sort with the `sortCompare` comparator — the model of
`Array.prototype.sort` used by `allMessages`. -/
def jsSort (l : List FeedMsg) : List FeedMsg :=
  l.foldl (fun acc x => insertStable x acc) []

/-- `allMessages` (ChatWindow.tsx line 60): history concatenated with the
live store filtered to the active chat, sorted by the timestamp
comparator. -/
def allMessages (chatId : String) (chatHistory live : List FeedMsg) : List FeedMsg :=
  jsSort (chatHistory ++ live.filter (fun m => m.chatId == chatId))

/-- `uniqueMessages` (ChatWindow.tsx line 65): keep an element exactly when
the first index holding its `id` is its own index
(`a.findIndex(t => String(t.id) === String(v.id)) === i`). -/
def uniqueMessages (l : List FeedMsg) : List FeedMsg :=
  (l.enum.filter
    (fun p => l.findIdx (fun t => t.id == p.2.id) == p.1)).map Prod.snd

/-- The merged feed handed to the UI: `uniqueMessages` applied to
`allMessages`. -/
def mergedFeed (chatId : String) (hist live : List FeedMsg) : List FeedMsg :=
  uniqueMessages (allMessages chatId hist live)

/-- Pointwise order on resolved times (`getD 0` reads the millisecond
value; under an all-parseable hypothesis it is exactly the parsed time). -/
def timeVal (m : FeedMsg) : Int :=
  m.time?.getD 0

def timeLe (a b : FeedMsg) : Prop :=
  timeVal a ≤ timeVal b

/-! ## Connection lifecycle (useWebSocket.ts lines 39-310)

The hook's refs and React state become one record; each event handler
becomes a pure function on it.  `sentFrames` is a ghost log of the
Message-shaped frames handed to `ws.send`, in transmission order
(heartbeat pings are control frames and are not logged).  `zombies`
tracks the ready states of sockets that were overwritten in `wsRef`
without being closed — their handlers stay attached, which the automatic
step relation below accounts for.  The `url` is taken as present and
well-formed (the claims under study are about a mounted hook with a fixed
chat identifier; the malformed-URL catch branch is not involved). -/

def MAX_RECONNECT_ATTEMPTS : Nat := 5

def RECONNECT_INTERVALS : List Nat := [1000, 2000, 5000, 10000, 30000]

def HEARTBEAT_INTERVAL : Nat := 30000

/-- WebSocket ready states the code distinguishes; `opened` models the
OPEN state (`open` is a Lean keyword).  CONNECTING and CLOSING both
compare unequal to OPEN in the source, so CLOSING is folded into
`closed`. -/
inductive ReadyState where
  | connecting : ReadyState
  | opened : ReadyState
  | closed : ReadyState
  deriving DecidableEq

def ReadyState.isLive : ReadyState → Bool
  | ReadyState.closed => false
  | _ => true

/-- The `ConnectionState` union type of useWebSocket.ts line 30. -/
inductive ConnectionState where
  | disconnected : ConnectionState
  | connecting : ConnectionState
  | connected : ConnectionState
  | error : ConnectionState
  | reconnecting : ConnectionState
  deriving DecidableEq

/-- An outbound Message-shaped frame (`sendMessage` lines 265-271); JSON
serialization is modelled by the record itself (`JSON.stringify` is
injective on these records). -/
structure Outbound where
  id : String
  chatId : String
  content : String
  timestamp : String
  sender : String
  deriving DecidableEq

/-- The hook state: React state (`connectionState`, `error`, `messages`)
and refs (`reconnectAttempts`, `reconnectTimeoutRef` as the pending
delay, `heartbeatIntervalRef` as a flag, `wsRef` as the ready state of
the current socket, `messageQueue`), plus the ghost fields `zombies` and
`sentFrames` described above. -/
structure HookState where
  connectionState : ConnectionState
  error : Option String
  reconnectAttempts : Nat
  reconnectTimer : Option Nat
  heartbeat : Bool
  ws : Option ReadyState
  zombies : List ReadyState
  messageQueue : List Outbound
  sentFrames : List Outbound
  messages : List StoredMessage
  deriving DecidableEq

/-- The state of a freshly mounted hook. -/
def initState : HookState :=
  { connectionState := ConnectionState.disconnected, error := none,
    reconnectAttempts := 0, reconnectTimer := none, heartbeat := false,
    ws := none, zombies := [], messageQueue := [], sentFrames := [],
    messages := [] }

/-- The backoff delay picked at useWebSocket.ts line 169:
`RECONNECT_INTERVALS[Math.min(reconnectAttempts.current, RECONNECT_INTERVALS.length - 1)]`. -/
def scheduleDelay (attempts : Nat) : Nat :=
  RECONNECT_INTERVALS.getD (min attempts (RECONNECT_INTERVALS.length - 1)) 0

/-- The `ws.onclose` handler (lines 150-180), acting only on the shared
refs/state (which socket fired it is handled by the step relation).  The
handler first sets `disconnected` and stops the heartbeat; then: code
4001 → auth diagnostic, return; code 4003 → rate-limit diagnostic,
return; a non-1000 code with the retry counter under the ceiling →
`reconnecting` plus a scheduled backoff timer; a counter at or over the
ceiling → give-up diagnostic; otherwise nothing more.  Each branch is
written here with the net effect of the whole handler run. -/
def onCloseShared (s : HookState) (code : Nat) : HookState :=
  if code = 4001 then
    { s with
      connectionState := ConnectionState.disconnected
      heartbeat := false
      error := some "Authentication failed. Please log in again." }
  else if code = 4003 then
    { s with
      connectionState := ConnectionState.disconnected
      heartbeat := false
      error := some "Rate limit exceeded. Please slow down." }
  else if code ≠ 1000 ∧ s.reconnectAttempts < MAX_RECONNECT_ATTEMPTS then
    { s with
      connectionState := ConnectionState.reconnecting
      heartbeat := false
      reconnectTimer := some (scheduleDelay s.reconnectAttempts) }
  else if MAX_RECONNECT_ATTEMPTS ≤ s.reconnectAttempts then
    { s with
      connectionState := ConnectionState.disconnected
      heartbeat := false
      error := some "Connection failed after multiple attempts. Please refresh the page." }
  else
    { s with
      connectionState := ConnectionState.disconnected
      heartbeat := false }

/-- `ws.onclose` fired by the current socket: the socket is now closed. -/
def closeCurrent (s : HookState) (code : Nat) : HookState :=
  { onCloseShared s code with ws := some ReadyState.closed }

/-- The `ws.onopen` handler (lines 132-148) on the shared refs/state:
`connected`, clear the error, reset the retry counter, start the
heartbeat, and drain the whole queue head-to-tail into `ws.send` (the
socket that just fired `onopen` is OPEN throughout the synchronous
loop). -/
def onOpenShared (s : HookState) : HookState :=
  { s with
    connectionState := ConnectionState.connected
    error := none
    reconnectAttempts := 0
    heartbeat := true
    sentFrames := s.sentFrames ++ s.messageQueue
    messageQueue := [] }

/-- `ws.onopen` fired by the current socket. -/
def openCurrent (s : HookState) : HookState :=
  { onOpenShared s with ws := some ReadyState.opened }

/-- The `ws.onerror` handler (lines 182-186). -/
def onError (s : HookState) : HookState :=
  { s with
    connectionState := ConnectionState.error
    error := some "Connection error occurred" }

/-- `connect` (lines 110-131): return unchanged when the current socket
is OPEN; otherwise set `connecting`, clear the error, and overwrite
`wsRef` with a fresh CONNECTING socket.  Nothing closes the previous
socket and nothing cancels a pending reconnect timer; the overwritten
socket (whatever its state) goes to the ghost `zombies` list. -/
def connect (s : HookState) : HookState :=
  if s.ws = some ReadyState.opened then s
  else
    { s with
      connectionState := ConnectionState.connecting
      error := none
      ws := some ReadyState.connecting
      zombies :=
        (match s.ws with
         | none => s.zombies
         | some r => r :: s.zombies) }

/-- The body of the backoff timeout (lines 173-176): increment the retry
counter, then `connect`; the fired timer is no longer pending. -/
def timerFire (s : HookState) : HookState :=
  connect { s with
    reconnectTimer := none
    reconnectAttempts := s.reconnectAttempts + 1 }

/-- `disconnect` (lines 231-246): cancel the pending timer, stop the
heartbeat, close the current socket (its later code-1000 close event is
a no-op for the model) and drop the ref, set `disconnected`, reset the
retry counter. -/
def disconnect (s : HookState) : HookState :=
  { s with
    reconnectTimer := none
    heartbeat := false
    connectionState := ConnectionState.disconnected
    reconnectAttempts := 0
    ws := none
    zombies :=
      (match s.ws with
       | none => s.zombies
       | some _ => ReadyState.closed :: s.zombies) }

/-- `sendMessage` (lines 249-285): reject empty-after-trim content;
reject over-length content with a diagnostic; otherwise build the frame
(fresh id and ISO timestamp are environment inputs `genId` / `nowIso`)
and either transmit immediately when the current socket is OPEN
(returning `true`) or append it to the queue (returning `false`). -/
def sendMessage (s : HookState) (chatId content genId nowIso : String) :
    HookState × Bool :=
  if String.mk (trimChars content.data) = "" then
    (s, false)
  else if MAX_MESSAGE_LENGTH < content.length then
    ({ s with error := some "Message too long. Maximum 4000 characters." }, false)
  else if s.ws = some ReadyState.opened then
    ({ s with sentFrames := s.sentFrames ++
        [{ id := genId, chatId := chatId, content := sanitizeMessage content,
           timestamp := nowIso, sender := "You" }] }, true)
  else
    ({ s with messageQueue := s.messageQueue ++
        [{ id := genId, chatId := chatId, content := sanitizeMessage content,
           timestamp := nowIso, sender := "You" }] }, false)

/-- Content that passes both outbound validation checks. -/
def validContent (content : String) : Bool :=
  decide (¬ String.mk (trimChars content.data) = "" ∧
    content.length ≤ MAX_MESSAGE_LENGTH)

/-- One user send action: the tuple of arguments `sendMessage` receives,
with the environment-chosen fresh id and timestamp. -/
structure SendReq where
  chatId : String
  content : String
  genId : String
  nowIso : String
  deriving DecidableEq

def sendReq (s : HookState) (r : SendReq) : HookState × Bool :=
  sendMessage s r.chatId r.content r.genId r.nowIso

/-- The frame `sendMessage` builds for a request. -/
def mkOutbound (r : SendReq) : Outbound :=
  { id := r.genId, chatId := r.chatId, content := sanitizeMessage r.content,
    timestamp := r.nowIso, sender := "You" }

/-- A sequence of send actions performed in order. -/
def enqueueAll : HookState → List SendReq → HookState
  | s, [] => s
  | s, r :: rs => enqueueAll (sendReq s r).1 rs

/-- One automatic step: an event the environment can fire with no user
action — socket events of the current socket, socket events of any live
zombie socket (their handlers are still attached and act on the same
shared refs), a pending backoff timer firing, or a heartbeat tick (which
only emits a ping control frame, leaving the model state unchanged).
Manual actions (`connect`, `disconnect`, `sendMessage`) are not automatic
steps. -/
inductive AutoStep : HookState → HookState → Prop where
  | openCur (s : HookState) :
      s.ws = some ReadyState.connecting → AutoStep s (openCurrent s)
  | closeCur (s : HookState) (code : Nat) (r : ReadyState) :
      s.ws = some r → r.isLive = true → AutoStep s (closeCurrent s code)
  | errorCur (s : HookState) (r : ReadyState) :
      s.ws = some r → r.isLive = true → AutoStep s (onError s)
  | msgCur (s : HookState) (frame : Frame) :
      s.ws = some ReadyState.opened →
      AutoStep s { s with messages := onMessage s.messages frame }
  | heartbeatTick (s : HookState) :
      s.heartbeat = true → AutoStep s s
  | timerFired (s : HookState) (d : Nat) :
      s.reconnectTimer = some d → AutoStep s (timerFire s)
  | openZombie (s : HookState) (i : Nat) :
      s.zombies[i]? = some ReadyState.connecting →
      AutoStep s { onOpenShared s with zombies := s.zombies.set i ReadyState.opened }
  | closeZombie (s : HookState) (i : Nat) (code : Nat) (r : ReadyState) :
      s.zombies[i]? = some r → r.isLive = true →
      AutoStep s { onCloseShared s code with zombies := s.zombies.set i ReadyState.closed }
  | errorZombie (s : HookState) (i : Nat) (r : ReadyState) :
      s.zombies[i]? = some r → r.isLive = true → AutoStep s (onError s)
  | msgZombie (s : HookState) (i : Nat) (frame : Frame) :
      s.zombies[i]? = some ReadyState.opened →
      AutoStep s { s with messages := onMessage s.messages frame }

/-- Sample state: a connected hook with a fresh retry counter. -/
def sampleConnected : HookState :=
  { initState with
    connectionState := ConnectionState.connected
    ws := some ReadyState.opened }

/-- Sample state: a connected hook whose retry counter is at the
ceiling. -/
def sampleCeiling : HookState :=
  { initState with
    connectionState := ConnectionState.connected
    reconnectAttempts := 5
    ws := some ReadyState.opened }

/-- Sample state: a hook whose socket is still CONNECTING. -/
def sampleConnecting : HookState :=
  { initState with
    connectionState := ConnectionState.connecting
    ws := some ReadyState.connecting }

/-- Sample send requests. -/
def reqHello : SendReq :=
  { chatId := "c", content := "hello", genId := "g1", nowIso := "t1" }

def reqWorld : SendReq :=
  { chatId := "c", content := "world", genId := "g2", nowIso := "t2" }

/-! ## Lemmas about the merge -/

/-- Stable insertion permutes. -/
lemma insertStable_perm (x : FeedMsg) (l : List FeedMsg) :
    (insertStable x l).Perm (x :: l) := by
  induction l with
  | nil => simp [insertStable]
  | cons y ys ih =>
      by_cases h : leSC y x = true
      · simp only [insertStable, h, if_true]
        exact (ih.cons y).trans (List.Perm.swap x y ys)
      · rw [Bool.not_eq_true] at h
        simp only [insertStable, h, Bool.false_eq_true, if_false]
        exact List.Perm.refl _

/-- The sort permutes its input (folded form). -/
lemma foldl_insertStable_perm (l : List FeedMsg) :
    ∀ acc : List FeedMsg,
      (l.foldl (fun acc x => insertStable x acc) acc).Perm (acc ++ l) := by
  induction l with
  | nil => intro acc; simp
  | cons x xs ih =>
      intro acc
      simp only [List.foldl_cons]
      exact (ih (insertStable x acc)).trans
        (((insertStable_perm x acc).append_right xs).trans List.perm_middle.symm)

/-- The sort permutes its input. -/
lemma jsSort_perm (l : List FeedMsg) : (jsSort l).Perm l := by
  have h := foldl_insertStable_perm l []
  simpa [jsSort] using h

/-- A non-positive comparison between messages with resolvable timestamps
is exactly the time order. -/
lemma timeLe_of_leSC {a b : FeedMsg} (h : leSC a b = true)
    (ha : a.time?.isSome = true) (hb : b.time?.isSome = true) : timeLe a b := by
  unfold leSC sortCompare at h
  unfold timeLe timeVal
  cases hA : a.time? with
  | none => rw [hA] at ha; simp at ha
  | some x =>
      cases hB : b.time? with
      | none => rw [hB] at hb; simp at hb
      | some y =>
          rw [hA, hB] at h
          simp only [decide_eq_true_eq] at h
          simp only [hA, hB, Option.getD_some]
          omega

/-- A positive comparison forces both timestamps to resolve, with the
second strictly earlier. -/
lemma lt_of_leSC_false {y x : FeedMsg} (h : leSC y x = false) :
    ∃ a b, y.time? = some a ∧ x.time? = some b ∧ b < a := by
  unfold leSC sortCompare at h
  cases hY : y.time? with
  | none => cases hX : x.time? <;> rw [hY, hX] at h <;> simp at h
  | some a =>
      cases hX : x.time? with
      | none => rw [hY, hX] at h; simp at h
      | some b =>
          rw [hY, hX] at h
          simp only [decide_eq_false_iff_not, not_le] at h
          exact ⟨a, b, rfl, rfl, by omega⟩

/-- Inserting into a time-sorted list of resolvable-timestamp messages
keeps it time-sorted. -/
lemma pairwise_insertStable {x : FeedMsg} {l : List FeedMsg}
    (hx : x.time?.isSome = true) (hl : ∀ m ∈ l, m.time?.isSome = true)
    (h : l.Pairwise timeLe) : (insertStable x l).Pairwise timeLe := by
  induction l with
  | nil => simp [insertStable]
  | cons y ys ih =>
      rw [List.pairwise_cons] at h
      obtain ⟨hy, hys⟩ := h
      by_cases hc : leSC y x = true
      · simp only [insertStable, hc, if_true]
        rw [List.pairwise_cons]
        refine ⟨?_, ih (fun m hm => hl m (List.mem_cons_of_mem y hm)) hys⟩
        intro b hb
        rw [(insertStable_perm x ys).mem_iff] at hb
        rcases List.mem_cons.mp hb with hbx | hbys
        · subst hbx
          exact timeLe_of_leSC hc (hl y (List.mem_cons_self y ys)) hx
        · exact hy b hbys
      · rw [Bool.not_eq_true] at hc
        simp only [insertStable, hc, Bool.false_eq_true, if_false]
        rw [List.pairwise_cons]
        obtain ⟨a, b, hYa, hXb, hba⟩ := lt_of_leSC_false hc
        refine ⟨?_, List.pairwise_cons.mpr ⟨hy, hys⟩⟩
        intro c hcm
        rcases List.mem_cons.mp hcm with h1 | h2
        · subst h1
          unfold timeLe timeVal
          rw [hYa, hXb]
          simp only [Option.getD_some]
          omega
        · have h3 := hy c h2
          unfold timeLe timeVal at h3 ⊢
          rw [hXb]
          rw [hYa] at h3
          simp only [Option.getD_some] at h3 ⊢
          omega

/-- Folded sortedness of the sort under an all-resolvable hypothesis. -/
lemma pairwise_foldl_insertStable (l : List FeedMsg) :
    ∀ acc : List FeedMsg, (∀ m ∈ l, m.time?.isSome = true) →
      (∀ m ∈ acc, m.time?.isSome = true) → acc.Pairwise timeLe →
      (l.foldl (fun acc x => insertStable x acc) acc).Pairwise timeLe := by
  induction l with
  | nil => intro acc _ _ hp; simpa using hp
  | cons x xs ih =>
      intro acc hl hacc hp
      simp only [List.foldl_cons]
      apply ih (insertStable x acc)
      · intro m hm; exact hl m (List.mem_cons_of_mem x hm)
      · intro m hm
        rw [(insertStable_perm x acc).mem_iff] at hm
        rcases List.mem_cons.mp hm with h1 | h2
        · rw [h1]; exact hl x (List.mem_cons_self x xs)
        · exact hacc m h2
      · exact pairwise_insertStable (hl x (List.mem_cons_self x xs)) hacc hp

/-- The sorted output is non-decreasing in resolved time when every input
timestamp resolves. -/
lemma pairwise_jsSort {l : List FeedMsg} (h : ∀ m ∈ l, m.time?.isSome = true) :
    (jsSort l).Pairwise timeLe := by
  unfold jsSort
  exact pairwise_foldl_insertStable l [] h (by simp) (by simp)

/-- Deduplication yields a sublist of its input. -/
lemma uniqueMessages_sublist (l : List FeedMsg) :
    (uniqueMessages l).Sublist l := by
  unfold uniqueMessages
  have h1 := List.filter_sublist
    (p := fun p : Nat × FeedMsg => l.findIdx (fun t => t.id == p.2.id) == p.1) l.enum
  have h2 := h1.map Prod.snd
  rwa [List.enum_map_snd] at h2

/-- The ids of the deduplicated list are pairwise distinct. -/
lemma uniqueMessages_map_id_nodup (l : List FeedMsg) :
    ((uniqueMessages l).map FeedMsg.id).Nodup := by
  unfold uniqueMessages
  rw [List.map_map]
  apply List.Nodup.map_on
  · intro x hx y hy hxy
    rw [List.mem_filter] at hx hy
    obtain ⟨hxe, hxP⟩ := hx
    obtain ⟨hye, hyP⟩ := hy
    have hx1 : l.findIdx (fun t => t.id == x.2.id) = x.1 := beq_iff_eq.mp hxP
    have hy1 : l.findIdx (fun t => t.id == y.2.id) = y.1 := beq_iff_eq.mp hyP
    have hids : x.2.id = y.2.id := hxy
    have hidx : x.1 = y.1 := by rw [← hx1, ← hy1, hids]
    have hxg := List.mem_enum_iff_getElem?.mp hxe
    have hyg := List.mem_enum_iff_getElem?.mp hye
    rw [hidx] at hxg
    have h2 : x.2 = y.2 := Option.some.inj (hxg.symm.trans hyg).symm.symm
    exact Prod.ext_iff.mpr ⟨hidx, h2⟩
  · exact List.Nodup.filter _
      (List.Nodup.of_map Prod.fst
        (by rw [List.enum_map_fst]; exact List.nodup_range _))

/-- Every surviving message is the first occurrence of its id in the
sorted list. -/
lemma uniqueMessages_keeps_first {l : List FeedMsg} {m : FeedMsg}
    (hm : m ∈ uniqueMessages l) :
    ∃ i, l[i]? = some m ∧
      ∀ (j : Nat) (x : FeedMsg), j < i → l[j]? = some x → x.id ≠ m.id := by
  unfold uniqueMessages at hm
  rw [List.mem_map] at hm
  obtain ⟨p, hp, hpm⟩ := hm
  rw [List.mem_filter] at hp
  obtain ⟨hpe, hpP⟩ := hp
  refine ⟨p.1, ?_, ?_⟩
  · rw [← hpm]; exact List.mem_enum_iff_getElem?.mp hpe
  · intro j x hj hx heq
    have hfi : l.findIdx (fun t => t.id == p.2.id) = p.1 := beq_iff_eq.mp hpP
    rw [← hfi] at hj
    have hfalse := List.not_of_lt_findIdx hj
    rw [List.getElem?_eq_some] at hx
    obtain ⟨hjl, hxe⟩ := hx
    have htrue : (x.id == p.2.id) = true := beq_iff_eq.mpr (by rw [heq, ← hpm])
    rw [← hxe] at htrue
    exact Bool.noConfusion (hfalse.symm.trans htrue)

/-! ## Claim theorems for the reconciliation merge -/

/-- C4: for every historical list and live list — duplicates within or
across the two lists included — every id occurs at most once in the
merged feed. -/
theorem c4_merged_feed_ids_occur_at_most_once
    (chatId : String) (hist live : List FeedMsg) :
    ((mergedFeed chatId hist live).map FeedMsg.id).Nodup :=
  uniqueMessages_map_id_nodup (allMessages chatId hist live)

/-- C2 counterexample: there is no id tie-break.  Two messages with equal
resolvable timestamps and ids "a"/"b" come out in one order when the
history holds "b" and the live store holds "a", and in the opposite order
when the channels are swapped — the comparator returns 0 on the tie and
the stable sort keeps concatenation order, so the relative order of an
equal-timestamp pair is NOT a function of their id values. -/
theorem c2_counterexample_no_id_tiebreak :
    (mergedFeed "c"
        [{ id := "b", content := "B", chatId := "c", time? := some 5 }]
        [{ id := "a", content := "A", chatId := "c", time? := some 5 }]).map
        FeedMsg.id = ["b", "a"] ∧
    (mergedFeed "c"
        [{ id := "a", content := "A", chatId := "c", time? := some 5 }]
        [{ id := "b", content := "B", chatId := "c", time? := some 5 }]).map
        FeedMsg.id = ["a", "b"] := by
  decide

/-- C2 amended: whenever every input timestamp is resolvable, the merged
feed is sorted non-decreasing by timestamp; equal-timestamp messages keep
their concatenation order (historical before live, each list in original
order) — ties are NOT broken by id. -/
theorem c2_merged_feed_sorted_nondecreasing
    (chatId : String) (hist live : List FeedMsg)
    (h : ∀ m ∈ hist ++ live, m.time?.isSome = true) :
    (mergedFeed chatId hist live).Pairwise timeLe := by
  have hall : ∀ m ∈ hist ++ live.filter (fun m => m.chatId == chatId),
      m.time?.isSome = true := by
    intro m hm
    rcases List.mem_append.mp hm with h1 | h2
    · exact h m (List.mem_append.mpr (Or.inl h1))
    · exact h m (List.mem_append.mpr (Or.inr (List.mem_of_mem_filter h2)))
  have hs : (allMessages chatId hist live).Pairwise timeLe := pairwise_jsSort hall
  exact List.Pairwise.sublist (uniqueMessages_sublist _) hs

/-- Witness for C2: the amended theorem applied at a concrete input. -/
theorem c2_merged_feed_sorted_nondecreasing_witness :
    (mergedFeed "c"
        [{ id := "h1", content := "H", chatId := "c", time? := some 7 }]
        [{ id := "l1", content := "L", chatId := "c", time? := some 2 }]).Pairwise
        timeLe :=
  c2_merged_feed_sorted_nondecreasing "c" _ _ (by decide)

/-- C3 counterexample: an id present in both lists, both copies with the
same resolvable timestamp — the kept representative is the HISTORICAL
copy, not the live one: the comparator returns 0, the stable sort leaves
the historical copy first, and `uniqueMessages` keeps the first
occurrence. -/
theorem c3_counterexample_live_copy_not_kept :
    (mergedFeed "c"
        [{ id := "x", content := "from-history", chatId := "c", time? := some 5 }]
        [{ id := "x", content := "from-live", chatId := "c", time? := some 5 }]).map
        FeedMsg.content = ["from-history"] ∧
    ({ id := "x", content := "from-live", chatId := "c", time? := some 5 } : FeedMsg) ∉
      mergedFeed "c"
        [{ id := "x", content := "from-history", chatId := "c", time? := some 5 }]
        [{ id := "x", content := "from-live", chatId := "c", time? := some 5 }] := by
  decide

/-- C3 amended: the representative kept for an id is the FIRST occurrence
of that id in the timestamp-sorted concatenation (so with equal resolvable
timestamps the historical copy wins, deterministically — not the live
copy). -/
theorem c3_representative_is_first_occurrence
    (chatId : String) (hist live : List FeedMsg) (m : FeedMsg)
    (hm : m ∈ mergedFeed chatId hist live) :
    ∃ i, (allMessages chatId hist live)[i]? = some m ∧
      ∀ (j : Nat) (x : FeedMsg), j < i →
        (allMessages chatId hist live)[j]? = some x → x.id ≠ m.id :=
  uniqueMessages_keeps_first hm

/-- Witness for C3: the amended theorem applied at a concrete input. -/
theorem c3_representative_is_first_occurrence_witness :
    ∃ i, (allMessages "c"
        [{ id := "a", content := "A", chatId := "c", time? := some 1 }] [])[i]? =
        some { id := "a", content := "A", chatId := "c", time? := some 1 } ∧
      ∀ (j : Nat) (x : FeedMsg), j < i →
        (allMessages "c"
          [{ id := "a", content := "A", chatId := "c", time? := some 1 }] [])[j]? =
          some x →
        x.id ≠ "a" :=
  c3_representative_is_first_occurrence "c" _ [] _ (by decide)

/-- C9 amended: the merge is total — it never raises, and before
deduplication it returns exactly a permutation of the concatenated inputs,
unparseable timestamps included; the deduplicated feed is a sublist of
that.  Unparseable timestamps are NOT pushed to the end: they compare
equal (NaN is coerced to 0) to every other element and keep their
stable-sort positions. -/
theorem c9_merge_total_and_lossless (chatId : String) (hist live : List FeedMsg) :
    (allMessages chatId hist live).Perm
      (hist ++ live.filter (fun m => m.chatId == chatId)) ∧
    (mergedFeed chatId hist live).Sublist (allMessages chatId hist live) :=
  ⟨jsSort_perm _, uniqueMessages_sublist _⟩

/-- C9 counterexample: a message with an unparseable timestamp sits
BEFORE a message with a resolvable one in the merged feed — unparseable
timestamps do not sort last. -/
theorem c9_counterexample_unparseable_not_last :
    ¬ (mergedFeed "c"
        [{ id := "m3", content := "3", chatId := "c", time? := some 3 },
         { id := "mU", content := "u", chatId := "c", time? := none }]
        [{ id := "m5", content := "5", chatId := "c", time? := some 5 }]).Pairwise
        (fun a b => a.time?.isNone = true → b.time?.isNone = true) := by
  decide

/-! ## Lemmas about the connection lifecycle -/

/-- Fields the close handler never touches, and the heartbeat it always
stops. -/
lemma onCloseShared_base (s : HookState) (code : Nat) :
    (onCloseShared s code).zombies = s.zombies ∧
    (onCloseShared s code).reconnectAttempts = s.reconnectAttempts ∧
    (onCloseShared s code).ws = s.ws ∧
    (onCloseShared s code).heartbeat = false ∧
    (onCloseShared s code).messageQueue = s.messageQueue ∧
    (onCloseShared s code).sentFrames = s.sentFrames := by
  unfold onCloseShared
  split
  · exact ⟨rfl, rfl, rfl, rfl, rfl, rfl⟩
  · split
    · exact ⟨rfl, rfl, rfl, rfl, rfl, rfl⟩
    · split
      · exact ⟨rfl, rfl, rfl, rfl, rfl, rfl⟩
      · split
        · exact ⟨rfl, rfl, rfl, rfl, rfl, rfl⟩
        · exact ⟨rfl, rfl, rfl, rfl, rfl, rfl⟩

/-- With the retry counter at the ceiling, the close handler schedules no
timer, settles at `disconnected`, and records a diagnostic whatever the
close code. -/
lemma onCloseShared_ceiling (s : HookState) (code : Nat)
    (hatt : MAX_RECONNECT_ATTEMPTS ≤ s.reconnectAttempts) :
    (onCloseShared s code).reconnectTimer = s.reconnectTimer ∧
    (onCloseShared s code).connectionState = ConnectionState.disconnected ∧
    (onCloseShared s code).error.isSome = true := by
  have h5 : ¬ (code ≠ 1000 ∧ s.reconnectAttempts < MAX_RECONNECT_ATTEMPTS) := by
    rintro ⟨_, h2⟩
    omega
  unfold onCloseShared
  by_cases h1 : code = 4001
  · rw [if_pos h1]
    exact ⟨rfl, rfl, rfl⟩
  · rw [if_neg h1]
    by_cases h2 : code = 4003
    · rw [if_pos h2]
      exact ⟨rfl, rfl, rfl⟩
    · rw [if_neg h2, if_neg h5, if_pos hatt]
      exact ⟨rfl, rfl, rfl⟩

/-- From a state whose socket is closed, with no pending timer, no
heartbeat and no live zombie socket, no automatic step can fire at
all. -/
lemma no_auto_step_of_dead {s t : HookState}
    (hws : s.ws = some ReadyState.closed)
    (htimer : s.reconnectTimer = none)
    (hhb : s.heartbeat = false)
    (hz : ∀ z ∈ s.zombies, z = ReadyState.closed) :
    ¬ AutoStep s t := by
  intro h
  cases h with
  | openCur h1 =>
      rw [hws] at h1
      exact ReadyState.noConfusion (Option.some.inj h1)
  | closeCur code r h1 h2 =>
      rw [hws] at h1
      rw [(Option.some.inj h1).symm] at h2
      simp [ReadyState.isLive] at h2
  | errorCur r h1 h2 =>
      rw [hws] at h1
      rw [(Option.some.inj h1).symm] at h2
      simp [ReadyState.isLive] at h2
  | msgCur frame h1 =>
      rw [hws] at h1
      exact ReadyState.noConfusion (Option.some.inj h1)
  | heartbeatTick h1 =>
      rw [hhb] at h1
      exact Bool.noConfusion h1
  | timerFired d h1 =>
      rw [htimer] at h1
      exact Option.noConfusion h1
  | openZombie i h1 =>
      exact ReadyState.noConfusion (hz _ (List.getElem?_mem h1))
  | closeZombie i code r h1 h2 =>
      rw [hz _ (List.getElem?_mem h1)] at h2
      simp [ReadyState.isLive] at h2
  | errorZombie i r h1 h2 =>
      rw [hz _ (List.getElem?_mem h1)] at h2
      simp [ReadyState.isLive] at h2
  | msgZombie i frame h1 =>
      exact ReadyState.noConfusion (hz _ (List.getElem?_mem h1))

/-- A dead state reaches only itself through automatic steps. -/
lemma reach_eq_of_dead {s : HookState}
    (hws : s.ws = some ReadyState.closed)
    (htimer : s.reconnectTimer = none)
    (hhb : s.heartbeat = false)
    (hz : ∀ z ∈ s.zombies, z = ReadyState.closed) :
    ∀ t, Relation.ReflTransGen AutoStep s t → t = s := by
  intro t h
  induction h with
  | refl => rfl
  | tail h1 h2 ih =>
      rw [ih] at h2
      exact absurd h2 (no_auto_step_of_dead hws htimer hhb hz)

/-! ## Claim theorems for the connection lifecycle -/

/-- C5 (amended): when the retry counter has reached the ceiling (5) and
the only live channel closes (no pending backoff timer, no other live
socket), the connection state becomes `disconnected` — NOT `error`: the
handler records the give-up diagnostic only in the error string — a
terminal diagnostic is recorded, no reconnect timer is scheduled, and no
sequence of automatic steps ever schedules one afterwards (manual
reconnection aside). -/
theorem c5_ceiling_close_is_terminal (s : HookState) (code : Nat)
    (hatt : MAX_RECONNECT_ATTEMPTS ≤ s.reconnectAttempts)
    (htimer : s.reconnectTimer = none)
    (hz : ∀ z ∈ s.zombies, z = ReadyState.closed) :
    (closeCurrent s code).connectionState = ConnectionState.disconnected ∧
    (closeCurrent s code).error.isSome = true ∧
    (closeCurrent s code).reconnectTimer = none ∧
    ∀ t, Relation.ReflTransGen AutoStep (closeCurrent s code) t →
      t.reconnectTimer = none := by
  obtain ⟨hz2, _, _, hhb, _, _⟩ := onCloseShared_base s code
  obtain ⟨ht, hcs, herr⟩ := onCloseShared_ceiling s code hatt
  have hct : (closeCurrent s code).reconnectTimer = none := by
    show (onCloseShared s code).reconnectTimer = none
    rw [ht, htimer]
  refine ⟨hcs, herr, hct, ?_⟩
  intro t hreach
  have hdead1 : (closeCurrent s code).ws = some ReadyState.closed := rfl
  have hdead3 : (closeCurrent s code).heartbeat = false := hhb
  have hdead4 : ∀ z ∈ (closeCurrent s code).zombies, z = ReadyState.closed := by
    intro z hzm
    apply hz
    have he : (closeCurrent s code).zombies = s.zombies := hz2
    rwa [he] at hzm
  have hts := reach_eq_of_dead hdead1 hct hdead3 hdead4 t hreach
  rw [hts]
  exact hct

/-- Witness for C5: the amended theorem applied at a connected state with
the counter at the ceiling, closing with code 1006. -/
theorem c5_ceiling_close_is_terminal_witness :
    (closeCurrent sampleCeiling 1006).connectionState =
      ConnectionState.disconnected ∧
    (closeCurrent sampleCeiling 1006).error.isSome = true ∧
    (closeCurrent sampleCeiling 1006).reconnectTimer = none := by
  have h := c5_ceiling_close_is_terminal sampleCeiling 1006 (by decide) (by decide)
    (by decide)
  exact ⟨h.1, h.2.1, h.2.2.1⟩

/-- C5 counterexample: at the retry ceiling, an abnormal close leaves the
connection state at `disconnected`, not `error` — `ws.onclose` sets the
state to `disconnected` at entry and never to `error`. -/
theorem c5_counterexample_state_is_not_error :
    (closeCurrent sampleCeiling 1006).connectionState ≠ ConnectionState.error ∧
    (closeCurrent sampleCeiling 1006).connectionState =
      ConnectionState.disconnected := by
  decide

/-- C6: a close with a non-retryable rejection code (4001 authentication,
4003 rate limit) schedules no reconnect timer (the pending-timer field is
exactly what it was before the close), keeps the retry counter at its
pre-close value, records a user-facing diagnostic, and settles the state
at `disconnected` — never `reconnecting`. -/
theorem c6_nonretryable_close_schedules_nothing (s : HookState) (code : Nat)
    (h : code = 4001 ∨ code = 4003) :
    (closeCurrent s code).reconnectTimer = s.reconnectTimer ∧
    (closeCurrent s code).reconnectAttempts = s.reconnectAttempts ∧
    (closeCurrent s code).error.isSome = true ∧
    (closeCurrent s code).connectionState = ConnectionState.disconnected := by
  rcases h with h | h <;> subst h
  · have e : onCloseShared s 4001 =
        { s with
          connectionState := ConnectionState.disconnected
          heartbeat := false
          error := some "Authentication failed. Please log in again." } := by
      unfold onCloseShared
      rw [if_pos rfl]
    unfold closeCurrent
    rw [e]
    exact ⟨rfl, rfl, rfl, rfl⟩
  · have e : onCloseShared s 4003 =
        { s with
          connectionState := ConnectionState.disconnected
          heartbeat := false
          error := some "Rate limit exceeded. Please slow down." } := by
      unfold onCloseShared
      rw [if_neg (by decide), if_pos rfl]
    unfold closeCurrent
    rw [e]
    exact ⟨rfl, rfl, rfl, rfl⟩

/-- Witness for C6: the theorem applied to a connected state closing with
code 4001. -/
theorem c6_nonretryable_close_schedules_nothing_witness :
    (closeCurrent sampleConnected 4001).reconnectTimer =
      sampleConnected.reconnectTimer ∧
    (closeCurrent sampleConnected 4001).reconnectAttempts =
      sampleConnected.reconnectAttempts ∧
    (closeCurrent sampleConnected 4001).error.isSome = true ∧
    (closeCurrent sampleConnected 4001).connectionState =
      ConnectionState.disconnected :=
  c6_nonretryable_close_schedules_nothing sampleConnected 4001 (Or.inl rfl)

/-- C7 counterexample: calling `connect` twice from a fresh mount (the
first socket still CONNECTING, hence not OPEN) constructs a second
channel while the first is still live — it is neither closed nor are its
timers cancelled — so two live channels for the same chat identifier
coexist; and a pending backoff timer survives `connect` untouched. -/
theorem c7_counterexample_two_live_channels :
    (connect (connect initState)).ws = some ReadyState.connecting ∧
    (connect (connect initState)).zombies = [ReadyState.connecting] ∧
    ReadyState.isLive ReadyState.connecting = true ∧
    (connect { initState with reconnectTimer := some 1000 }).reconnectTimer =
      some 1000 := by
  decide

/-- C7 (amended): `connect` constructs no new channel while the current
one is OPEN (it returns with the state unchanged); otherwise it
constructs a new CONNECTING channel WITHOUT tearing the previous one
down — the reconnect timer is untouched and the previous socket is
merely dropped from the ref in whatever state it was, so a previous
channel that is still connecting stays live alongside the new one. -/
theorem c7_connect_constructs_without_teardown (s : HookState) :
    (s.ws = some ReadyState.opened → connect s = s) ∧
    (s.ws ≠ some ReadyState.opened →
      (connect s).ws = some ReadyState.connecting ∧
      (connect s).reconnectTimer = s.reconnectTimer ∧
      ∀ r : ReadyState, s.ws = some r → (connect s).zombies = r :: s.zombies) := by
  constructor
  · intro h
    unfold connect
    rw [if_pos h]
  · intro h
    unfold connect
    rw [if_neg h]
    refine ⟨rfl, rfl, ?_⟩
    intro r hr
    show (match s.ws with
          | none => s.zombies
          | some r => r :: s.zombies) = r :: s.zombies
    rw [hr]

/-- Witness for C7: the amended theorem applied at a hook whose socket is
still CONNECTING. -/
theorem c7_connect_constructs_without_teardown_witness :
    (connect sampleConnecting).zombies =
      ReadyState.connecting :: sampleConnecting.zombies ∧
    (connect sampleConnecting).ws = some ReadyState.connecting :=
  ⟨((c7_connect_constructs_without_teardown sampleConnecting).2 (by decide)).2.2
      ReadyState.connecting rfl,
   ((c7_connect_constructs_without_teardown sampleConnecting).2 (by decide)).1⟩

/-- A valid send while the socket is not OPEN appends the frame to the
queue tail and reports `false`. -/
lemma sendMessage_valid_not_open (s : HookState) (r : SendReq)
    (hv : validContent r.content = true) (hws : s.ws ≠ some ReadyState.opened) :
    sendReq s r =
      ({ s with messageQueue := s.messageQueue ++ [mkOutbound r] }, false) := by
  unfold validContent at hv
  rw [decide_eq_true_eq] at hv
  obtain ⟨h1, h2⟩ := hv
  unfold sendReq sendMessage
  rw [if_neg h1, if_neg (by omega : ¬ MAX_MESSAGE_LENGTH < r.content.length),
    if_neg hws]
  rfl

/-- A valid send while the socket is OPEN transmits the frame and reports
`true`. -/
lemma sendMessage_valid_open (s : HookState) (r : SendReq)
    (hv : validContent r.content = true) (hws : s.ws = some ReadyState.opened) :
    sendReq s r =
      ({ s with sentFrames := s.sentFrames ++ [mkOutbound r] }, true) := by
  unfold validContent at hv
  rw [decide_eq_true_eq] at hv
  obtain ⟨h1, h2⟩ := hv
  unfold sendReq sendMessage
  rw [if_neg h1, if_neg (by omega : ¬ MAX_MESSAGE_LENGTH < r.content.length),
    if_pos hws]
  rfl

/-- Valid sends while the socket is not OPEN accumulate at the queue tail
in submission order. -/
lemma enqueueAll_spec (rs : List SendReq) :
    ∀ s : HookState, s.ws ≠ some ReadyState.opened →
      (∀ r ∈ rs, validContent r.content = true) →
      enqueueAll s rs =
        { s with messageQueue := s.messageQueue ++ rs.map mkOutbound } := by
  induction rs with
  | nil =>
      intro s _ _
      simp [enqueueAll]
  | cons r rs ih =>
      intro s hws hv
      rw [show enqueueAll s (r :: rs) = enqueueAll (sendReq s r).1 rs from rfl]
      rw [sendMessage_valid_not_open s r (hv r (List.mem_cons_self r rs)) hws]
      have ih2 := ih { s with messageQueue := s.messageQueue ++ [mkOutbound r] }
        hws (fun r2 h2 => hv r2 (List.mem_cons_of_mem r h2))
      rw [ih2]
      simp [List.append_assoc]

/-- C8: messages enqueued while the channel is not open are transmitted on
the open transition head-to-tail, after the previously queued entries and
in their original submission order, and any message composed after the
transition is transmitted strictly after all of them. -/
theorem c8_queue_flushed_fifo (s : HookState) (rs : List SendReq)
    (hws : s.ws ≠ some ReadyState.opened)
    (hv : ∀ r ∈ rs, validContent r.content = true) :
    (openCurrent (enqueueAll s rs)).sentFrames =
      s.sentFrames ++ s.messageQueue ++ rs.map mkOutbound ∧
    (openCurrent (enqueueAll s rs)).messageQueue = [] ∧
    ∀ r2 : SendReq, validContent r2.content = true →
      (sendReq (openCurrent (enqueueAll s rs)) r2).1.sentFrames =
        s.sentFrames ++ s.messageQueue ++ rs.map mkOutbound ++ [mkOutbound r2] := by
  have he := enqueueAll_spec rs s hws hv
  have h1 : (openCurrent (enqueueAll s rs)).sentFrames =
      s.sentFrames ++ s.messageQueue ++ rs.map mkOutbound := by
    rw [he]
    show s.sentFrames ++ (s.messageQueue ++ rs.map mkOutbound) =
      s.sentFrames ++ s.messageQueue ++ rs.map mkOutbound
    rw [List.append_assoc]
  refine ⟨h1, rfl, ?_⟩
  intro r2 hv2
  have hop : (openCurrent (enqueueAll s rs)).ws = some ReadyState.opened := rfl
  rw [sendMessage_valid_open _ r2 hv2 hop]
  show (openCurrent (enqueueAll s rs)).sentFrames ++ [mkOutbound r2] = _
  rw [h1]

/-- Witness for C8: two messages queued from a fresh mount are flushed in
submission order by the open transition. -/
theorem c8_queue_flushed_fifo_witness :
    (openCurrent (enqueueAll initState [reqHello, reqWorld])).sentFrames =
      initState.sentFrames ++ initState.messageQueue ++
        [reqHello, reqWorld].map mkOutbound :=
  (c8_queue_flushed_fifo initState [reqHello, reqWorld] (by decide) (by decide)).1

/-- C10: `sendMessage` returns `true` exactly when the content passes
validation AND the current socket is OPEN (in which case the frame is
transmitted immediately); it returns `false` both for rejected content
(nothing queued, nothing sent) and for a valid message merely appended to
the queue — so `false` alone does not distinguish rejection from
queueing. -/
theorem c10_sendMessage_result_semantics (s : HookState)
    (chatId content genId nowIso : String) :
    ((sendMessage s chatId content genId nowIso).2 = true ↔
      (validContent content = true ∧ s.ws = some ReadyState.opened)) ∧
    (validContent content = false →
      (sendMessage s chatId content genId nowIso).1.messageQueue =
        s.messageQueue ∧
      (sendMessage s chatId content genId nowIso).1.sentFrames =
        s.sentFrames) ∧
    (validContent content = true → s.ws ≠ some ReadyState.opened →
      (sendMessage s chatId content genId nowIso).2 = false ∧
      (sendMessage s chatId content genId nowIso).1.messageQueue =
        s.messageQueue ++
          [{ id := genId, chatId := chatId, content := sanitizeMessage content,
             timestamp := nowIso, sender := "You" }]) ∧
    ((sendMessage s chatId content genId nowIso).2 = true →
      (sendMessage s chatId content genId nowIso).1.sentFrames =
        s.sentFrames ++
          [{ id := genId, chatId := chatId, content := sanitizeMessage content,
             timestamp := nowIso, sender := "You" }]) := by
  unfold sendMessage validContent
  by_cases h1 : String.mk (trimChars content.data) = ""
  · simp [h1]
  · by_cases h2 : MAX_MESSAGE_LENGTH < content.length
    · have hv : ¬ (¬ String.mk (trimChars content.data) = "" ∧
          content.length ≤ MAX_MESSAGE_LENGTH) := by
        rintro ⟨_, hle⟩
        omega
      simp [h1, h2, hv]
    · have hv : (¬ String.mk (trimChars content.data) = "" ∧
          content.length ≤ MAX_MESSAGE_LENGTH) := ⟨h1, by omega⟩
      by_cases h3 : s.ws = some ReadyState.opened
      · simp [h1, h2, h3, hv]
      · simp [h1, h2, h3, hv]

/-- Witness for C10: a valid message sent from a fresh (not yet open)
mount reports `false` and lands at the queue tail. -/
theorem c10_sendMessage_result_semantics_witness :
    (sendMessage initState "c" "hi" "g" "t").2 = false ∧
    (sendMessage initState "c" "hi" "g" "t").1.messageQueue =
      initState.messageQueue ++
        [{ id := "g", chatId := "c", content := sanitizeMessage "hi",
           timestamp := "t", sender := "You" }] :=
  (c10_sendMessage_result_semantics initState "c" "hi" "g" "t").2.2.1
    (by decide) (by decide)

/-- C1 (the code contradicts its own XSS-prevention purpose): the accepted
inbound payload whose content is the literal `<script>` tag is stored
verbatim — `sanitizeMessage` replaces `<` by `<` and `>` by `>`
(self-substitutions), never touches `&`, and only rewrites the apostrophe
— so the `<` and `>` reach the inbound message store as literal tag
markers. -/
theorem c1_script_stored_with_literal_markers :
    (onMessage [] (Frame.payload
        { id := "m1", content := "<script>alert(1)</script>", sender := "srv",
          chatId := "42", timestamp := none, content_type := none })).map
        StoredMessage.content = ["<script>alert(1)</script>"] ∧
    '<' ∈ "<script>alert(1)</script>".data ∧
    '>' ∈ "<script>alert(1)</script>".data := by
  decide

end WorkingBot
